import Mathlib

/-!
# Verification of the sign-language player (`src/main.py`)

A shallow embedding of the program in Lean 4.  The program listens for a
sentence, maps each recognized word to a sign-media path through the static
catalog `SIGN_DICT`, and plays the resulting paths sequentially.

The embedding models:
* the Python string primitives the code relies on (`str.split()`,
  `str.strip()`, `str.lower()`, `os.path.splitext`, `os.path.join`) over
  ASCII text;
* `sentence_to_sign_paths` (resolver), including its `[INFO]` diagnostics;
* `play_video` (playback controller), with the external world — image
  decode success, capture open success, frame count, per-frame key codes —
  supplied as an explicit environment, and the exit paths classified by an
  outcome enumeration; emitted events (frames shown, waits, warnings) and
  the number of `cap.release()` calls are recorded;
* `listen_for_sentence` and one cycle of `main`'s listen loop, with the
  speech-recognition call's result supplied as an explicit value.
-/

/-! ## Python string primitives (ASCII model) -/

/-- The ASCII whitespace characters on which Python's `str.split()` and
`str.strip()` split/trim: space, tab, newline, carriage return, vertical
tab, form feed. -/
def isPySpace (c : Char) : Bool :=
  c.toNat == 32 || c.toNat == 9 || c.toNat == 10 || c.toNat == 13 ||
    c.toNat == 11 || c.toNat == 12

/-- ASCII lowercasing of one character, as Python's `str.lower()` acts on
ASCII: `A`–`Z` (codes 65–90) map 32 codes up, everything else is fixed. -/
def lowerChar (c : Char) : Char :=
  if h : 65 ≤ c.toNat ∧ c.toNat ≤ 90 then
    Char.ofNatAux (c.toNat + 32)
      (Or.inl (Nat.lt_of_le_of_lt (Nat.add_le_add_right h.2 32) (by decide)))
  else c

/-- Python `str.lower()` (ASCII model): lowercase every character. -/
def pyLower (s : String) : String := ⟨s.data.map lowerChar⟩

/-- Trim `isPySpace` characters from both ends of a character list. -/
def stripChars (l : List Char) : List Char :=
  ((l.dropWhile isPySpace).reverse.dropWhile isPySpace).reverse

/-- Python `str.strip()` (no argument): trim ASCII whitespace from both
ends. -/
def pyStrip (s : String) : String := ⟨stripChars s.data⟩

/-- Helper for `pySplit`: consume characters, accumulating the current
token (in reverse) and emitting it when whitespace or the end is reached. -/
def splitAux : List Char → List Char → List (List Char)
  | [], acc => if acc.isEmpty then [] else [acc.reverse]
  | c :: rest, acc =>
    if isPySpace c then
      if acc.isEmpty then splitAux rest [] else acc.reverse :: splitAux rest []
    else splitAux rest (c :: acc)

/-- Python `str.split()` (no argument): split on runs of whitespace,
discarding empty tokens. -/
def pySplit (s : String) : List String :=
  (splitAux s.data []).map fun l => ⟨l⟩

/-- The basename of a path: the part after the last `/` (POSIX model of
`os.path.basename`). -/
def pyBasename (s : String) : String :=
  ⟨(s.data.reverse.takeWhile (· ≠ '/')).reverse⟩

/-- The extension part of `os.path.splitext(path)` (POSIX model): the
suffix of the basename starting at its last dot, provided some character
strictly before that dot in the basename is not itself a dot; otherwise
the empty string. -/
def splitextExt (path : String) : String :=
  let b := (pyBasename path).data
  let afterDot := b.reverse.takeWhile (· ≠ '.')
  if afterDot.length = b.length then ""
  else
    let before := b.take (b.length - afterDot.length - 1)
    if before.any (· ≠ '.') then ⟨'.' :: afterDot.reverse⟩ else ""

/-- Does the string begin with `/`? (`b.startswith("/")` in `os.path.join`.) -/
def headIsSlash (s : String) : Bool :=
  match s.data with
  | c :: _ => c == '/'
  | [] => false

/-- Does the string end with `/`? (`a.endswith("/")` in `os.path.join`.) -/
def lastIsSlash (s : String) : Bool :=
  match s.data.getLast? with
  | some c => c == '/'
  | none => false

/-- POSIX `os.path.join` for two components, as the program uses it:
an absolute second component wins; otherwise concatenate, inserting `/`
unless the first component is empty or already ends with `/`. -/
def pyJoin (a b : String) : String :=
  if headIsSlash b then b
  else if a.data.isEmpty || lastIsSlash a then ⟨a.data ++ b.data⟩
  else ⟨a.data ++ '/' :: b.data⟩

/-! ## Configuration (`src/main.py` lines 48–59) -/

/-- `SIGN_FOLDER`: directory that stores the sign files. -/
def SIGN_FOLDER : String := "signs"

/-- `SIGN_DICT`: the word → sign-file-name map, as an association list in
the source's insertion order. -/
def SIGN_DICT : List (String × String) :=
  [("how", "how.mp4"), ("can", "can.mp4"), ("i", "I.mp4"), ("help", "help.mp4")]

/-- `INTER_SIGN_DELAY`: the delay in seconds between consecutive signs. -/
def INTER_SIGN_DELAY : ℚ := 0.4

/-- Python `dict.get`: the value at the first matching key, or `none`. -/
def dictGet (d : List (String × String)) (w : String) : Option String :=
  (d.find? fun kv => kv.1 == w).map Prod.snd

/-- Python truthiness of `dict.get`'s result, as `if filename:` tests it:
true iff the key is present and its value is a nonempty string. -/
def truthy : Option String → Bool
  | some f => !f.isEmpty
  | none => false

/-! ## Sentence resolver (`sentence_to_sign_paths`, lines 94–105) -/

/-- The normalization applied to each raw token at line 98:
`raw_word.strip().lower()`. -/
def normalizeWord (raw : String) : String := pyLower (pyStrip raw)

/-- A diagnostic the resolver prints: `[INFO] No sign found for '<word>'`. -/
inductive ResolveLog where
  | noSign (word : String)
deriving DecidableEq, Repr

/-- The loop body of `sentence_to_sign_paths` over the token list: for each
raw token, normalize it, look it up in the dictionary, and either append
`os.path.join(SIGN_FOLDER, filename)` (when the lookup result is truthy)
or log the no-sign diagnostic.  Returns the accumulated paths and logs. -/
def resolveTokens (d : List (String × String)) :
    List String → List String × List ResolveLog
  | [] => ([], [])
  | raw :: rest =>
    let word := normalizeWord raw
    let r := resolveTokens d rest
    match dictGet d word with
    | some f =>
      if f.isEmpty then (r.1, .noSign word :: r.2)
      else (pyJoin SIGN_FOLDER f :: r.1, r.2)
    | none => (r.1, .noSign word :: r.2)

/-- `sentence_to_sign_paths`: split the sentence, map each word to its sign
path, skipping words with no (truthy) catalog entry.  The dictionary is
passed explicitly; the source reads the module-level `SIGN_DICT`. -/
def sentence_to_sign_paths (d : List (String × String)) (sentence : String) :
    List String :=
  (resolveTokens d (pySplit sentence)).1

/-- The `[INFO]` diagnostics `sentence_to_sign_paths` prints, in order. -/
def resolveLogs (d : List (String × String)) (sentence : String) :
    List ResolveLog :=
  (resolveTokens d (pySplit sentence)).2

/-! ## Playback controller (`play_video`, lines 63–91)

The external world is an explicit environment: whether `cv2.imread`
succeeds, whether `cv2.VideoCapture` opens, how many frames the capture
delivers before `cap.read()` returns `ret = False`, and the key code each
per-frame `cv2.waitKey(25)` returns (255 when no key is pressed).  The
source function returns `None`; here each of its exit paths is labelled
with the outcome it realizes (spec §4.3): image/video open failure →
`FailedToOpen`, the `'q'`-key break → `StoppedByUser`, natural frame
exhaustion and successful image display → `Completed`. -/

/-- Terminal classification of one playback attempt (spec §4.3). -/
inductive PlaybackOutcome where
  | Completed
  | StoppedByUser
  | FailedToOpen
deriving DecidableEq, Repr

/-- Observable events of one `play_video` call, in order: `[WARN]`
diagnostics, frames shown, and waits.  `wait` is a `cv2.waitKey` whose
result the code discards (the image branch, line 74); `waitPoll` is a
`cv2.waitKey(25)` whose result is tested against `ord("q")` (line 89). -/
inductive PlayEvent where
  | warnImage (path : String)
  | warnVideo (path : String)
  | showFrame
  | wait (ms : Nat)
  | waitPoll (ms : Nat) (key : Nat)
deriving DecidableEq, Repr

/-- The external behaviour `play_video` observes through OpenCV. -/
structure VideoEnv where
  imreadOk : Bool
  openOk : Bool
  frameCount : Nat
  keys : List Nat
deriving DecidableEq, Repr

/-- Result of one modelled `play_video` call: the outcome its exit path
realizes, the events it emitted, and how many times `cap.release()` ran. -/
structure PlayResult where
  outcome : PlaybackOutcome
  events : List PlayEvent
  releases : Nat
deriving DecidableEq, Repr

/-- The still-image extension set of line 67. -/
def imageExts : List String := [".jpg", ".jpeg", ".png", ".gif", ".bmp"]

/-- The extension-based classification at lines 65–78: a recognized
still-image extension selects the image branch; anything else falls
through to the video branch. -/
inductive MediaKind where
  | still
  | video
deriving DecidableEq, Repr

/-- Classify a path the way `play_video` does: lowercase the
`os.path.splitext` extension and test membership in `imageExts`. -/
def mediaKind (path : String) : MediaKind :=
  if pyLower (splitextExt path) ∈ imageExts then .still else .video

/-- The `while cap.isOpened()` loop (lines 83–90) for an opened capture:
each iteration reads a frame (`ret = False` after `frames` reads, ending
the loop with `Completed`), shows it, and polls `waitKey(25)`; a key code
whose low byte is `ord("q") = 113` breaks out with `StoppedByUser`. -/
def videoLoop : Nat → List Nat → PlaybackOutcome × List PlayEvent
  | 0, _ => (.Completed, [])
  | frames + 1, keys =>
    let key := keys.headD 255
    if key &&& 255 == 113 then (.StoppedByUser, [.showFrame, .waitPoll 25 key])
    else
      ((videoLoop frames keys.tail).1,
        .showFrame :: .waitPoll 25 key :: (videoLoop frames keys.tail).2)

/-- `play_video`: classify by extension; image branch decodes and shows
for 1500 ms (or warns and returns on decode failure); video branch opens a
capture (warning and returning — without a release — on open failure),
runs the frame loop, then calls `cap.release()` once. -/
def play_video (env : VideoEnv) (path : String) : PlayResult :=
  if pyLower (splitextExt path) ∈ imageExts then
    if env.imreadOk then
      { outcome := .Completed, events := [.showFrame, .wait 1500], releases := 0 }
    else
      { outcome := .FailedToOpen, events := [.warnImage path], releases := 0 }
  else
    if env.openOk then
      { outcome := (videoLoop env.frameCount env.keys).1,
        events := (videoLoop env.frameCount env.keys).2, releases := 1 }
    else
      { outcome := .FailedToOpen, events := [.warnVideo path], releases := 0 }

/-! ## Listen loop (`listen_for_sentence` lines 108–124, `main` lines 140–156) -/

/-- The result of the remote `recognizer.recognize_google(audio)` call:
recognized text, `sr.UnknownValueError`, or `sr.RequestError`. -/
inductive RecResult where
  | recognized (text : String)
  | unknownValue
  | requestError (msg : String)
deriving DecidableEq, Repr

/-- Console output of `listen_for_sentence`: the `[STT]` line on success,
or one of the two `[ERROR]` diagnostics. -/
inductive ListenLog where
  | stt (text : String)
  | errUnknown
  | errRequest (msg : String)
deriving DecidableEq, Repr

/-- `listen_for_sentence` after audio capture: on recognized text, print
the `[STT]` line and return the text lowercased; on either recognition
exception, print the corresponding `[ERROR]` line and return `""`. -/
def listen_for_sentence (r : RecResult) : String × List ListenLog :=
  match r with
  | .recognized t => (pyLower t, [.stt t])
  | .unknownValue => ("", [.errUnknown])
  | .requestError m => ("", [.errRequest m])

/-- Observable events of one iteration of `main`'s `while True` loop. -/
inductive CycleEvent where
  | listen (l : ListenLog)
  | resolve (l : ResolveLog)
  | infoNoPlayable
  | play (path : String)
  | sleep (seconds : ℚ)
  | destroyWindows
  | ready
deriving DecidableEq, Repr

/-- The playback phase of `main` (lines 151–153): play each path in
order, sleeping `INTER_SIGN_DELAY` seconds after each one. -/
def playSequence : List String → List CycleEvent
  | [] => []
  | p :: rest => .play p :: .sleep INTER_SIGN_DELAY :: playSequence rest

/-- One iteration of `main`'s loop (lines 141–156): listen; on an empty
sentence `continue` back to the top (Idle); otherwise resolve, and either
report no playable signs or play the sequence, destroy the window, and
print the `[READY]` line. -/
def mainCycle (r : RecResult) : List CycleEvent :=
  let sentence := (listen_for_sentence r).1
  let base := (listen_for_sentence r).2.map CycleEvent.listen
  if sentence.isEmpty then base
  else
    let paths := (resolveTokens SIGN_DICT (pySplit sentence)).1
    let rbase :=
      base ++ (resolveTokens SIGN_DICT (pySplit sentence)).2.map CycleEvent.resolve
    if paths.isEmpty then rbase ++ [.infoNoPlayable]
    else rbase ++ playSequence paths ++ [.destroyWindows, .ready]

/-! ## Character and string lemmas -/

/-- `Char.ofNatAux` packs exactly the given code point. -/
theorem toNat_ofNatAux (n : Nat) (h : n.isValidChar) :
    (Char.ofNatAux n h).toNat = n := rfl

/-- The code point of `lowerChar c`. -/
theorem lowerChar_toNat (c : Char) :
    (lowerChar c).toNat =
      if 65 ≤ c.toNat ∧ c.toNat ≤ 90 then c.toNat + 32 else c.toNat := by
  unfold lowerChar
  by_cases h : 65 ≤ c.toNat ∧ c.toNat ≤ 90
  · rw [dif_pos h, if_pos h, toNat_ofNatAux]
  · rw [dif_neg h, if_neg h]

/-- `lowerChar` fixes characters outside `A`–`Z`. -/
theorem lowerChar_of_not_upper {c : Char} (h : ¬(65 ≤ c.toNat ∧ c.toNat ≤ 90)) :
    lowerChar c = c := dif_neg h

/-- ASCII lowercasing is idempotent. -/
theorem lowerChar_idem (c : Char) : lowerChar (lowerChar c) = lowerChar c := by
  by_cases h : 65 ≤ c.toNat ∧ c.toNat ≤ 90
  · apply lowerChar_of_not_upper
    rw [lowerChar_toNat, if_pos h]
    omega
  · rw [lowerChar_of_not_upper h, lowerChar_of_not_upper h]

/-- Lowercasing neither creates nor destroys whitespace. -/
theorem isPySpace_lowerChar (c : Char) : isPySpace (lowerChar c) = isPySpace c := by
  unfold isPySpace
  rw [lowerChar_toNat]
  by_cases h : 65 ≤ c.toNat ∧ c.toNat ≤ 90
  · rw [if_pos h]
    have hL : ((c.toNat + 32 == 32 || c.toNat + 32 == 9 || c.toNat + 32 == 10 ||
        c.toNat + 32 == 13 || c.toNat + 32 == 11 || c.toNat + 32 == 12) : Bool)
        = false := by
      simp only [Bool.or_eq_false_iff, beq_eq_false_iff_ne, ne_eq]
      omega
    have hR : ((c.toNat == 32 || c.toNat == 9 || c.toNat == 10 ||
        c.toNat == 13 || c.toNat == 11 || c.toNat == 12) : Bool) = false := by
      simp only [Bool.or_eq_false_iff, beq_eq_false_iff_ne, ne_eq]
      omega
    rw [hL, hR]
  · rw [if_neg h]

/-- `stripChars` commutes with pointwise lowercasing. -/
theorem stripChars_map_lower (l : List Char) :
    stripChars (l.map lowerChar) = (stripChars l).map lowerChar := by
  have hp : (isPySpace ∘ lowerChar) = isPySpace := funext isPySpace_lowerChar
  unfold stripChars
  rw [List.dropWhile_map, hp, ← List.map_reverse, List.dropWhile_map, hp,
    ← List.map_reverse]

/-- A list whose head is not accepted by `p` is untouched by `dropWhile p`. -/
theorem dropWhile_head_eq_self {α : Type} {p : α → Bool} {l : List α}
    (h : ∀ x ∈ l.head?, p x = false) : l.dropWhile p = l := by
  cases l with
  | nil => rfl
  | cons a t =>
    have ha : p a = false := h a rfl
    simp [List.dropWhile_cons, ha]

/-- The head of a stripped list is not whitespace. -/
theorem head?_stripChars (l : List Char) :
    ∀ x ∈ (stripChars l).head?, isPySpace x = false := by
  intro x hx
  rw [Option.mem_def] at hx
  unfold stripChars at hx
  rw [List.head?_reverse] at hx
  obtain ⟨t, ht⟩ :=
    List.dropWhile_suffix (l := (l.dropWhile isPySpace).reverse) isPySpace
  have h2 : ((l.dropWhile isPySpace).reverse).getLast? = some x := by
    rw [← ht, List.getLast?_append, hx]
    rfl
  rw [List.getLast?_reverse] at h2
  have h3 := List.head?_dropWhile_not isPySpace l
  rw [h2] at h3
  exact h3

/-- The last element of a stripped list is not whitespace. -/
theorem getLast?_stripChars (l : List Char) :
    ∀ x ∈ (stripChars l).getLast?, isPySpace x = false := by
  intro x hx
  rw [Option.mem_def] at hx
  unfold stripChars at hx
  rw [List.getLast?_reverse] at hx
  have h3 := List.head?_dropWhile_not isPySpace ((l.dropWhile isPySpace).reverse)
  rw [hx] at h3
  exact h3

/-- Stripping is idempotent. -/
theorem stripChars_idem (l : List Char) :
    stripChars (stripChars l) = stripChars l := by
  have h1 : (stripChars l).dropWhile isPySpace = stripChars l :=
    dropWhile_head_eq_self (head?_stripChars l)
  show ((((stripChars l).dropWhile isPySpace).reverse).dropWhile isPySpace).reverse
      = stripChars l
  rw [h1]
  have h2 : (stripChars l).reverse.dropWhile isPySpace = (stripChars l).reverse := by
    apply dropWhile_head_eq_self
    intro x hx
    rw [List.head?_reverse] at hx
    exact getLast?_stripChars l x hx
  rw [h2, List.reverse_reverse]

/-- `str.strip()` is idempotent. -/
theorem pyStrip_idem (s : String) : pyStrip (pyStrip s) = pyStrip s := by
  show String.mk (stripChars (stripChars s.data)) = String.mk (stripChars s.data)
  rw [stripChars_idem]

/-- `str.lower()` is idempotent. -/
theorem pyLower_idem (s : String) : pyLower (pyLower s) = pyLower s := by
  show String.mk ((s.data.map lowerChar).map lowerChar) = String.mk (s.data.map lowerChar)
  rw [List.map_map,
    show lowerChar ∘ lowerChar = lowerChar from funext lowerChar_idem]

/-- Stripping an already lowered-and-stripped string changes nothing. -/
theorem pyStrip_pyLower_pyStrip (s : String) :
    pyStrip (pyLower (pyStrip s)) = pyLower (pyStrip s) := by
  show String.mk (stripChars ((stripChars s.data).map lowerChar))
      = String.mk ((stripChars s.data).map lowerChar)
  rw [stripChars_map_lower, stripChars_idem]

/-- The resolver's token normalization (`strip` then `lower`) is
idempotent. -/
theorem normalizeWord_idem (raw : String) :
    normalizeWord (normalizeWord raw) = normalizeWord raw := by
  unfold normalizeWord
  rw [pyStrip_pyLower_pyStrip, pyLower_idem]

/-! ## Resolver characterization -/

/-- `resolveTokens` is filter-then-map over the normalized token list: the
paths are the joined filenames of the truthy-mapped words in token order,
and the logs are the no-sign diagnostics of the remaining words in token
order. -/
theorem resolveTokens_eq (d : List (String × String)) (ts : List String) :
    resolveTokens d ts =
      ((((ts.map normalizeWord).filter fun w => truthy (dictGet d w)).map
          fun w => pyJoin SIGN_FOLDER ((dictGet d w).getD "")),
        (((ts.map normalizeWord).filter fun w => !truthy (dictGet d w)).map
          ResolveLog.noSign)) := by
  induction ts with
  | nil => rfl
  | cons raw rest ih =>
    simp only [resolveTokens, ih, List.map_cons, List.filter_cons]
    cases hd : dictGet d (normalizeWord raw) with
    | none => simp [truthy, hd]
    | some f =>
      cases hf : f.isEmpty with
      | true => simp [truthy, hd, hf]
      | false => simp [truthy, hd, hf]

/-- The frame loop of an opened capture never reports an open failure: it
ends only by frame exhaustion (`Completed`) or the `q` key
(`StoppedByUser`). -/
theorem videoLoop_fst_ne_FailedToOpen (frames : Nat) :
    ∀ keys : List Nat, (videoLoop frames keys).1 ≠ .FailedToOpen := by
  induction frames with
  | zero => intro keys; simp [videoLoop]
  | succ n ih =>
    intro keys
    unfold videoLoop
    dsimp only
    split
    · simp
    · exact ih keys.tail

/-! ## Claims -/

/-- C1: for every dictionary and sentence, the resolver's output is
exactly the join-mapped filter of the normalized words that have a truthy
catalog entry, in sentence order — so the relative order of mapped words
is preserved — and every output entry arises from some mapped word;
unmapped words contribute nothing (no null-padding). -/
theorem C1_resolver_order_and_unmapped_drop
    (d : List (String × String)) (s : String) :
    sentence_to_sign_paths d s =
      (((pySplit s).map normalizeWord).filter fun w => truthy (dictGet d w)).map
        (fun w => pyJoin SIGN_FOLDER ((dictGet d w).getD "")) ∧
    ∀ p ∈ sentence_to_sign_paths d s,
      ∃ w ∈ (pySplit s).map normalizeWord,
        truthy (dictGet d w) = true ∧
        p = pyJoin SIGN_FOLDER ((dictGet d w).getD "") := by
  have h1 : sentence_to_sign_paths d s =
      (((pySplit s).map normalizeWord).filter fun w => truthy (dictGet d w)).map
        (fun w => pyJoin SIGN_FOLDER ((dictGet d w).getD "")) := by
    unfold sentence_to_sign_paths
    rw [resolveTokens_eq]
  refine ⟨h1, ?_⟩
  intro p hp
  rw [h1] at hp
  rcases List.mem_map.mp hp with ⟨w, hw, rfl⟩
  rcases List.mem_filter.mp hw with ⟨hmem, ht⟩
  exact ⟨w, hmem, ht, rfl⟩

/-- C2: resolving `"how can i help"` against the full sample catalog gives
exactly the four sample paths in sentence order, and the playback phase of
`main` plays them in that order with a 0.4-second sleep after each. -/
theorem C2_end_to_end_sample_sentence :
    sentence_to_sign_paths SIGN_DICT "how can i help" =
      ["signs/how.mp4", "signs/can.mp4", "signs/I.mp4", "signs/help.mp4"] ∧
    playSequence (sentence_to_sign_paths SIGN_DICT "how can i help") =
      [.play "signs/how.mp4", .sleep 0.4, .play "signs/can.mp4", .sleep 0.4,
        .play "signs/I.mp4", .sleep 0.4, .play "signs/help.mp4", .sleep 0.4] :=
  ⟨by decide, rfl⟩

/-- C3: the playback outcome is always one of the three enumeration
values, and on a `.png` path whose decode fails (`cv2.imread` returns
`None`) the call returns `FailedToOpen` with exactly the warning
diagnostic as its output — it is a total function, so no exception
escapes. -/
theorem C3_playback_outcome_and_png_decode_failure
    (env : VideoEnv) (path : String) :
    ((play_video env path).outcome = .Completed ∨
      (play_video env path).outcome = .StoppedByUser ∨
      (play_video env path).outcome = .FailedToOpen) ∧
    (pyLower (splitextExt path) = ".png" → env.imreadOk = false →
      (play_video env path).outcome = .FailedToOpen ∧
      (play_video env path).events = [.warnImage path]) := by
  constructor
  · cases h : (play_video env path).outcome
    · exact Or.inl rfl
    · exact Or.inr (Or.inl rfl)
    · exact Or.inr (Or.inr rfl)
  · intro hext hok
    have hmem : pyLower (splitextExt path) ∈ imageExts := by
      rw [hext]; decide
    unfold play_video
    rw [if_pos hmem, if_neg (by simp [hok])]
    exact ⟨rfl, rfl⟩

/-- C3 witness: a concrete `.png` path with a failing decode. -/
theorem C3_png_decode_failure_witness :
    (play_video ⟨false, false, 0, []⟩ "signs/pic.png").outcome = .FailedToOpen ∧
    (play_video ⟨false, false, 0, []⟩ "signs/pic.png").events =
      [.warnImage "signs/pic.png"] :=
  (C3_playback_outcome_and_png_decode_failure ⟨false, false, 0, []⟩
    "signs/pic.png").2 (by decide) rfl

/-- C4 counterexample: on a video path whose capture fails to open, the
code returns at line 81 before ever reaching `cap.release()` (line 91),
so the handle is not released exactly once — it is not released at all. -/
theorem C4_counterexample_open_failure_skips_release :
    ¬ ((play_video ⟨true, false, 3, []⟩ "signs/how.mp4").releases = 1) := by
  decide

/-- C4 (amended): for every video path, the capture handle is released
exactly once when the capture opens — covering natural completion, user
stop, and mid-stream decode failure — but zero times on an open failure,
where the early return skips `cap.release()`. -/
theorem C4_release_once_iff_opened (env : VideoEnv) (path : String)
    (h : mediaKind path = .video) :
    (play_video env path).releases = if env.openOk then 1 else 0 := by
  have hne : pyLower (splitextExt path) ∉ imageExts := by
    intro hmem
    unfold mediaKind at h
    rw [if_pos hmem] at h
    exact absurd h (by decide)
  unfold play_video
  rw [if_neg hne]
  cases henv : env.openOk <;> simp [henv]

/-- C4 witness: a concrete opened video capture is released exactly once. -/
theorem C4_release_once_witness :
    mediaKind "signs/how.mp4" = .video ∧
    (play_video ⟨true, true, 2, []⟩ "signs/how.mp4").releases =
      (if (⟨true, true, 2, []⟩ : VideoEnv).openOk then 1 else 0) :=
  ⟨by decide,
    C4_release_once_iff_opened ⟨true, true, 2, []⟩ "signs/how.mp4" (by decide)⟩

/-- C5: when recognition fails with `UnknownValueError` or `RequestError`,
`listen_for_sentence` returns the empty sentence after printing an
`[ERROR]` diagnostic, and the cycle of `main` goes straight back to the
top of the loop: its whole trace is the diagnostics, with no play event. -/
theorem C5_recognition_failure_skips_cycle (r : RecResult)
    (h : r = .unknownValue ∨ ∃ m, r = .requestError m) :
    (listen_for_sentence r).1 = "" ∧
    (listen_for_sentence r).2 ≠ [] ∧
    mainCycle r = ((listen_for_sentence r).2).map CycleEvent.listen ∧
    ∀ p, CycleEvent.play p ∉ mainCycle r := by
  have hs : (listen_for_sentence r).1 = "" ∧ (listen_for_sentence r).2 ≠ [] := by
    rcases h with h | ⟨m, h⟩ <;> subst h <;> exact ⟨rfl, by simp [listen_for_sentence]⟩
  have h3 : mainCycle r = ((listen_for_sentence r).2).map CycleEvent.listen := by
    rcases h with h | ⟨m, h⟩ <;> subst h <;> rfl
  refine ⟨hs.1, hs.2, h3, ?_⟩
  intro p hp
  rw [h3] at hp
  rcases List.mem_map.mp hp with ⟨l, _, hl⟩
  simp at hl

/-- C5 witness: the unintelligible-audio case. -/
theorem C5_recognition_failure_witness :
    (listen_for_sentence .unknownValue).1 = "" ∧
    (listen_for_sentence .unknownValue).2 ≠ [] ∧
    mainCycle .unknownValue =
      ((listen_for_sentence .unknownValue).2).map CycleEvent.listen ∧
    ∀ p, CycleEvent.play p ∉ mainCycle .unknownValue :=
  C5_recognition_failure_skips_cycle .unknownValue (Or.inl rfl)

/-- C6: the empty sentence and a whitespace-only sentence both resolve to
the empty path sequence, for every dictionary. -/
theorem C6_empty_and_whitespace_sentences (d : List (String × String)) :
    sentence_to_sign_paths d "" = [] ∧ sentence_to_sign_paths d "   " = [] :=
  ⟨rfl, rfl⟩

/-- C7: lookup is case-insensitive through normalization — processing a
raw token is the same as processing its trimmed lowercased form (because
the normalization is idempotent), `lookup("How")` equals `lookup("how")`,
and `"HELLO world"` against the catalog `{hello: hello.mp4}` matches the
`hello` entry (with unmapped `world` dropped). -/
theorem C7_case_insensitive_lookup :
    (∀ (d : List (String × String)) (raw : String),
        resolveTokens d [raw] = resolveTokens d [normalizeWord raw]) ∧
    dictGet SIGN_DICT (normalizeWord "How") =
      dictGet SIGN_DICT (normalizeWord "how") ∧
    sentence_to_sign_paths [("hello", "hello.mp4")] "HELLO world" =
      ["signs/hello.mp4"] := by
  refine ⟨?_, by decide, by decide⟩
  intro d raw
  simp only [resolveTokens, normalizeWord_idem]

/-- C8: on a still-image path whose decode succeeds, playback shows the
frame, waits the fixed 1500 ms with the `waitKey` result discarded, and
completes; no polled wait (the video loop's early-exit check) occurs. -/
theorem C8_still_image_fixed_display (env : VideoEnv) (path : String)
    (himg : mediaKind path = .still) (hok : env.imreadOk = true) :
    play_video env path =
      { outcome := .Completed, events := [.showFrame, .wait 1500],
        releases := 0 } ∧
    ∀ ms k, PlayEvent.waitPoll ms k ∉ (play_video env path).events := by
  have hmem : pyLower (splitextExt path) ∈ imageExts := by
    by_contra hc
    unfold mediaKind at himg
    rw [if_neg hc] at himg
    exact absurd himg (by decide)
  have h1 : play_video env path =
      { outcome := .Completed, events := [.showFrame, .wait 1500],
        releases := 0 } := by
    unfold play_video
    rw [if_pos hmem, if_pos hok]
  refine ⟨h1, ?_⟩
  intro ms k hp
  rw [h1] at hp
  simp at hp

/-- C8 witness: a concrete decodable image path. -/
theorem C8_still_image_witness :
    play_video ⟨true, true, 0, []⟩ "signs/pic.png" =
      { outcome := .Completed, events := [.showFrame, .wait 1500],
        releases := 0 } ∧
    ∀ ms k, PlayEvent.waitPoll ms k ∉
      (play_video ⟨true, true, 0, []⟩ "signs/pic.png").events :=
  C8_still_image_fixed_display ⟨true, true, 0, []⟩ "signs/pic.png"
    (by decide) rfl

/-- C9: a path whose lowercased extension is not in the still-image set is
classified as video and is not rejected: its playback fails to open if
and only if the capture itself fails to open. -/
theorem C9_unknown_extension_is_video (env : VideoEnv) (path : String)
    (h : pyLower (splitextExt path) ∉ imageExts) :
    mediaKind path = .video ∧
    ((play_video env path).outcome = .FailedToOpen ↔ env.openOk = false) := by
  constructor
  · unfold mediaKind
    rw [if_neg h]
  · unfold play_video
    rw [if_neg h]
    cases henv : env.openOk
    · simp [henv]
    · simp [henv]
      exact videoLoop_fst_ne_FailedToOpen env.frameCount env.keys

/-- C9 witness: a concrete unknown extension (`.xyz`) goes down the video
branch and plays rather than being rejected. -/
theorem C9_unknown_extension_witness :
    mediaKind "signs/sign.xyz" = .video ∧
    ((play_video ⟨true, true, 0, []⟩ "signs/sign.xyz").outcome = .FailedToOpen ↔
      (⟨true, true, 0, []⟩ : VideoEnv).openOk = false) :=
  C9_unknown_extension_is_video ⟨true, true, 0, []⟩ "signs/sign.xyz" (by decide)

/-- C10: a word whose catalog entry is the empty string is treated as
unmapped — `if filename:` tests truthiness, not key presence — so the
resolver logs the no-sign diagnostic for it and appends no path. -/
theorem C10_empty_filename_is_unmapped (d : List (String × String))
    (raw : String) (rest : List String)
    (h : dictGet d (normalizeWord raw) = some "") :
    resolveTokens d (raw :: rest) =
      ((resolveTokens d rest).1,
        ResolveLog.noSign (normalizeWord raw) :: (resolveTokens d rest).2) := by
  have he : "".isEmpty = true := rfl
  simp [resolveTokens, h, he]

/-- C10 witness: a concrete catalog mapping `ghost` to `""`. -/
theorem C10_empty_filename_witness :
    dictGet [("ghost", "")] (normalizeWord "ghost") = some "" ∧
    resolveTokens [("ghost", "")] ["ghost"] =
      ((resolveTokens [("ghost", "")] []).1,
        ResolveLog.noSign (normalizeWord "ghost") ::
          (resolveTokens [("ghost", "")] []).2) :=
  ⟨by decide, C10_empty_filename_is_unmapped [("ghost", "")] "ghost" [] (by decide)⟩
